import Mathlib

set_option maxHeartbeats 1000000

/-!
Verification development for the guild monitoring bot (`src/index.js`).

The JavaScript source is shallowly embedded below: JS objects used as string-keyed
maps become association lists, promises become an explicit settle-time model,
side effects (channel renames, filesystem writes, log calls) become event traces,
and `try`/`catch` becomes `Except` plus an explicit handler.
-/

namespace StatusBot

/-- JS object / `Map` lookup (`obj[k]`): first binding for the key, if any. -/
def alookup {α : Type} : List (String × α) → String → Option α
  | [], _ => none
  | (k', v) :: rest, k => if k' = k then some v else alookup rest k

/-- JS `delete obj[k]` / `Map.delete`: drop every binding of the key. -/
def aremove {α : Type} : List (String × α) → String → List (String × α)
  | [], _ => []
  | (k', v) :: rest, k => if k' = k then aremove rest k else (k', v) :: aremove rest k

/-- JS `obj[k] = v` / `Map.set`: bind the key to the value. -/
def aset {α : Type} (l : List (String × α)) (k : String) (v : α) : List (String × α) :=
  (k, v) :: aremove l k

theorem alookup_aset_self {α : Type} (l : List (String × α)) (k : String) (v : α) :
    alookup (aset l k v) k = some v := by
  simp [aset, alookup]

theorem alookup_aremove {α : Type} (l : List (String × α)) (k k' : String) :
    alookup (aremove l k) k' = if k' = k then none else alookup l k' := by
  induction l with
  | nil => simp [aremove, alookup]
  | cons p rest ih =>
    obtain ⟨a, b⟩ := p
    by_cases hak : a = k
    · subst hak
      by_cases hk' : k' = a
      · subst hk'
        simp [aremove, alookup, ih]
      · simp [aremove, alookup, hk', Ne.symm hk', ih]
    · by_cases hak' : a = k'
      · have hk'k : ¬ k' = k := by
          intro h; exact hak (hak'.trans h)
        simp [aremove, alookup, hak, hak', hk'k]
      · simp [aremove, alookup, hak, hak', ih]

theorem alookup_aset_ne {α : Type} (l : List (String × α)) (k k' : String) (v : α)
    (h : ¬ k' = k) : alookup (aset l k v) k' = alookup l k' := by
  simp [aset, alookup, Ne.symm h, alookup_aremove, h]

/-! ### String helpers used by the label rendering code -/

/-- `SERVER_NAME_MAX` from index.js: the channel-name length ceiling. -/
def SERVER_NAME_MAX : Nat := 100

/-- JS `s.slice(0, SERVER_NAME_MAX)`: keep the first 100 characters. -/
def take100 (s : String) : String := (s.toList.take SERVER_NAME_MAX).asString

/-- Character-list core of `String.prototype.replace` with a string pattern:
replace only the first occurrence, leave the string unchanged when absent. -/
def replaceFirstAux (pat rep : List Char) : List Char → List Char
  | [] => []
  | c :: rest =>
    if pat.isPrefixOf (c :: rest) then rep ++ (c :: rest).drop pat.length
    else c :: replaceFirstAux pat rep rest

/-- JS `s.replace(pat, rep)` with a string pattern: first occurrence only. -/
def replaceFirst (s pat rep : String) : String :=
  (replaceFirstAux pat.toList rep.toList s.toList).asString

/-- JS `v || d` on an optional string field: `undefined` and `""` are falsy. -/
def jsOr (v : Option String) (d : String) : String :=
  match v with
  | none => d
  | some s => if s = "" then d else s

/-! ### Promise model and `withTimeout` -/

/-- Behaviour of a JS promise: resolve or reject at some (virtual) time, or
never settle at all. -/
inductive PromiseOutcome (α : Type) where
  | resolved (t : Nat) (v : α)
  | rejected (t : Nat) (msg : String)
  | pending
deriving DecidableEq

/-- A promise that is guaranteed to settle. -/
inductive Settled (α : Type) where
  | resolved (t : Nat) (v : α)
  | rejected (t : Nat) (msg : String)
deriving DecidableEq

/-- The 7000 ms per-host upper bound passed to `withTimeout` in `updateGuild`. -/
def overallTimeout : Nat := 7000

/-- `withTimeout(promise, ms)` from index.js: `Promise.race` of the inner
promise against a timer that rejects with `Error('timeout')` at `ms`.
The settled branch of the race wins; the loser's eventual result is dropped.
(The `finally { clearTimeout(timer) }` only releases the timer and does not
affect the settled value, so it has no counterpart here.) -/
def withTimeout {α : Type} (p : PromiseOutcome α) (ms : Nat) : Settled α :=
  match p with
  | .resolved t v => if t < ms then .resolved t v else .rejected ms "timeout"
  | .rejected t m => if t < ms then .rejected t m else .rejected ms "timeout"
  | .pending => .rejected ms "timeout"

/-- Whether a promise settles strictly before the given deadline. -/
def settlesBefore {α : Type} : PromiseOutcome α → Nat → Bool
  | .resolved t _, ms => decide (t < ms)
  | .rejected t _, ms => decide (t < ms)
  | .pending, _ => false

/-! ### Probe results (`minecraft-server-util` status shape) -/

/-- The `players` field of a status result; either count may be absent. -/
structure StatusPlayers where
  online : Option Nat
  max : Option Nat
deriving DecidableEq

/-- The slice of a `status` / `statusBedrock` result that index.js reads. -/
structure StatusResult where
  players : Option StatusPlayers
deriving DecidableEq

/-- `result.players?.online ?? 0` from index.js. -/
def onlineOf (r : StatusResult) : Nat :=
  match r.players with
  | some p => p.online.getD 0
  | none => 0

/-- `result.players?.max ?? 0` from index.js. -/
def maxOf (r : StatusResult) : Nat :=
  match r.players with
  | some p => p.max.getD 0
  | none => 0

/-! ### Channels and server configuration -/

/-- The slice of a Discord guild channel that index.js reads and writes. -/
structure GuildChannel where
  id : String
  manageable : Bool
  name : String
deriving DecidableEq

/-- The guild's channels, keyed by channel id (cache plus fetchable set). -/
def ChanMap : Type := List (String × GuildChannel)

instance : DecidableEq ChanMap := by
  unfold ChanMap
  infer_instance

/-- `fetchChannelSafe(guild, channelId)` from index.js: cache lookup, then a
fetch whose failure is swallowed into `null`. `fetchNull` injects the case
where the channel cannot be obtained (deleted channel / failed fetch). -/
def fetchChannelSafe (chans : ChanMap) (fetchNull : Bool) (channelId : String) :
    Option GuildChannel :=
  if fetchNull then none else alookup chans channelId

/-- `channel.setName(nm)`: rename the channel object with the given id. -/
def setChanName (chans : ChanMap) (chId : String) (nm : String) : ChanMap :=
  chans.map (fun p => if p.1 = chId then (p.1, { p.2 with name := nm }) else p)

/-- One monitored server's stored configuration (`db[gid].servers[host]`).
`onlineName`/`offlineName` are `Option` because the JS code guards them
with `||` against absent values. -/
structure ServerCfg where
  channelId : String
  port : Nat
  bedrock : Bool
  onlineName : Option String
  offlineName : Option String
deriving DecidableEq

/-- One tenant's configuration (`db[gid]`): servers keyed by host. -/
structure GuildCfg where
  servers : List (String × ServerCfg)
deriving DecidableEq

/-- The whole persisted mapping (`db`): tenants keyed by guild id. -/
def DB : Type := List (String × GuildCfg)

instance : DecidableEq DB := by
  unfold DB
  infer_instance

/-- The online label:
`(cfg.onlineName || 'Online | {online}/{max}').replace('{online}', online).replace('{max}', max).slice(0, SERVER_NAME_MAX)`. -/
def renderOnline (onlineName : Option String) (online mx : Nat) : String :=
  take100 (replaceFirst
    (replaceFirst (jsOr onlineName "Online | \x7bonline\x7d/\x7bmax\x7d")
      "\x7bonline\x7d" (toString online))
    "\x7bmax\x7d" (toString mx))

/-- The offline label:
`(cfg.offlineName || 'Offline | Server down').slice(0, SERVER_NAME_MAX)`. -/
def renderOffline (offlineName : Option String) : String :=
  take100 (jsOr offlineName "Offline | Server down")

/-! ### The per-service unit of `updateGuild` -/

/-- Observable events of one per-service unit, in program order. -/
inductive UEvent where
  | warnNoChannel
  | warnNotManageable
  | setNameCall (channelId : String) (newName : String)
  | errorOfflineFail
  | warnCheckFailed
deriving DecidableEq

/-- Errors that the unit's `try` body can raise. -/
inductive UnitErr where
  | probeErr (msg : String)
  | setNameErr
deriving DecidableEq

/-- Which way the unit finished. -/
inductive UnitPath where
  | noChannel
  | notManageable
  | onlineDone (wrote : Bool)
  | offlineDone (wrote : Bool)
  | offlineSkipped
  | offlineFailed
deriving DecidableEq

/-- Failure injection for one unit: how its collaborators behave. -/
structure UnitEnv where
  fetchNull : Bool
  probe : PromiseOutcome StatusResult
  setNameFails : Bool
  fetchNull2 : Bool
  setNameFails2 : Bool

/-- The settled outcome of one unit: channel state, event trace, path. -/
structure UnitOut where
  chans : ChanMap
  events : List UEvent
  path : UnitPath
deriving DecidableEq

/-- The `try` body of one per-service unit (index.js lines 85–119):
resolve the channel, require manageability, probe under `withTimeout`,
render the online name, rename only when it differs. Errors carry the
events already emitted before the throw. -/
def unitTry (env : UnitEnv) (chans : ChanMap) (cfg : ServerCfg) :
    Except (List UEvent × UnitErr) UnitOut :=
  match fetchChannelSafe chans env.fetchNull cfg.channelId with
  | none => .ok ⟨chans, [.warnNoChannel], .noChannel⟩
  | some ch =>
    if ch.manageable = false then .ok ⟨chans, [.warnNotManageable], .notManageable⟩
    else
      match withTimeout env.probe overallTimeout with
      | .rejected _ m => .error ([], .probeErr m)
      | .resolved _ r =>
        let nm := renderOnline cfg.onlineName (onlineOf r) (maxOf r)
        if ch.name = nm then .ok ⟨chans, [], .onlineDone false⟩
        else if env.setNameFails then .error ([.setNameCall ch.id nm], .setNameErr)
        else .ok ⟨setChanName chans ch.id nm, [.setNameCall ch.id nm], .onlineDone true⟩

/-- The `catch` block of one per-service unit (index.js lines 120–132):
re-fetch the channel, apply the offline name when manageable and different,
swallow a failure of that rename, then log the original check failure. -/
def unitCatch (env : UnitEnv) (chans : ChanMap) (cfg : ServerCfg) : UnitOut :=
  match fetchChannelSafe chans env.fetchNull2 cfg.channelId with
  | none => ⟨chans, [.warnCheckFailed], .offlineSkipped⟩
  | some ch =>
    if ch.manageable = false then ⟨chans, [.warnCheckFailed], .offlineSkipped⟩
    else
      let offNm := renderOffline cfg.offlineName
      if ch.name = offNm then ⟨chans, [.warnCheckFailed], .offlineDone false⟩
      else if env.setNameFails2 then
        ⟨chans, [.setNameCall ch.id offNm, .errorOfflineFail, .warnCheckFailed], .offlineFailed⟩
      else
        ⟨setChanName chans ch.id offNm,
          [.setNameCall ch.id offNm, .warnCheckFailed], .offlineDone true⟩

/-- One guarded per-service unit: the `try` body with its `catch` handler.
Total: every error of the body is converted into a settled outcome. -/
def runUnit (env : UnitEnv) (chans : ChanMap) (cfg : ServerCfg) : UnitOut :=
  match unitTry env chans cfg with
  | .ok out => out
  | .error (es, _) =>
    let c := unitCatch env chans cfg
    ⟨c.chans, es ++ c.events, c.path⟩

/-- The `setName` calls a trace contains, in order. -/
def writeCalls (es : List UEvent) : List (String × String) :=
  es.filterMap (fun e =>
    match e with
    | .setNameCall c n => some (c, n)
    | _ => none)

/-- Paths that belong to the unit's failure (offline-fallback) branch. -/
def isOfflinePath : UnitPath → Bool
  | .offlineDone _ => true
  | .offlineSkipped => true
  | .offlineFailed => true
  | _ => false

/-- `updateGuild` (index.js lines 76–138): look up the tenant's servers and
run one guarded unit per server (`Promise.allSettled` over the entries);
with no configured servers the cycle is a no-op. Each unit reads the
cycle-start channel snapshot. -/
def updateGuild (db : DB) (gid : String) (genv : String → UnitEnv)
    (chans : ChanMap) : List (String × UnitOut) :=
  match alookup db gid with
  | none => []
  | some g =>
    if g.servers.isEmpty then []
    else g.servers.map (fun p => (p.1, runUnit (genv p.1) chans p.2))

/-! ### Scheduler: the `tasks` map and interval timers -/

/-- Scheduler state: the `tasks` map (`guildId -> intervalId`), the runtime's
set of live intervals (each tagged with the guild whose `updateGuild` closure
it runs), and a counter supplying fresh interval ids. -/
structure SchedState where
  tasks : List (String × Nat)
  intervals : List (String × Nat)
  nextId : Nat
deriving DecidableEq

/-- `clearInterval(id)`: the interval with that id stops existing. -/
def clearIntervalM (s : SchedState) (i : Nat) : SchedState :=
  { s with intervals := s.intervals.filter (fun p => p.2 != i) }

/-- `setInterval(() => updateGuild(guild), CHECK_INTERVAL)`: a fresh live
interval for the guild; returns its id. -/
def setIntervalM (s : SchedState) (gid : String) : SchedState × Nat :=
  ({ s with intervals := (gid, s.nextId) :: s.intervals, nextId := s.nextId + 1 },
    s.nextId)

/-- `stopMonitoring(guildId)` from index.js: clear and remove the tenant's
interval when the map holds one, otherwise do nothing. -/
def stopMonitoring (s : SchedState) (gid : String) : SchedState :=
  match alookup s.tasks gid with
  | some i =>
    let s1 := clearIntervalM s i
    { s1 with tasks := aremove s1.tasks gid }
  | none => s

/-- `startMonitoring(guild)` from index.js: stop any previous timer for the
tenant, then arm a fresh interval and record its handle in `tasks`. -/
def startMonitoring (s : SchedState) (gid : String) : SchedState :=
  let s1 := stopMonitoring s gid
  let si := setIntervalM s1 gid
  { si.1 with tasks := aset si.1.tasks gid si.2 }

/-- The ids of live intervals that run the given tenant's cycle. -/
def activeFor (s : SchedState) (gid : String) : List Nat :=
  (s.intervals.filter (fun p => p.1 == gid)).map (fun p => p.2)

/-- Scheduler well-formedness: interval ids are fresh-bounded and distinct,
and the live intervals of each tenant are exactly what `tasks` records. -/
def SchedInv (s : SchedState) : Prop :=
  (∀ p ∈ s.intervals, p.2 < s.nextId) ∧
  (s.intervals.map (fun p => p.2)).Nodup ∧
  (∀ g, activeFor s g = (alookup s.tasks g).elim [] (fun i => [i]))

/-! ### Scheduler lemmas -/

theorem stop_nextId (s : SchedState) (gid : String) :
    (stopMonitoring s gid).nextId = s.nextId := by
  unfold stopMonitoring clearIntervalM
  cases alookup s.tasks gid <;> rfl

theorem activeFor_filter_snd (l : List (String × Nat)) (i : Nat) (g : String) :
    ((l.filter (fun p => p.2 != i)).filter (fun p => p.1 == g)).map (fun p => p.2) =
      ((l.filter (fun p => p.1 == g)).map (fun p => p.2)).filter (fun x => x != i) := by
  induction l with
  | nil => rfl
  | cons p rest ih =>
    by_cases h2 : p.2 = i <;> by_cases h1 : p.1 = g <;>
      simp [List.filter_cons, h1, h2, ih, -List.filter_filter]

theorem mem_activeFor {s : SchedState} {g : String} {j : Nat}
    (h : j ∈ activeFor s g) : (g, j) ∈ s.intervals := by
  unfold activeFor at h
  rw [List.mem_map] at h
  obtain ⟨p, hp, hpj⟩ := h
  rw [List.mem_filter] at hp
  obtain ⟨hmem, hpg⟩ := hp
  obtain ⟨a, b⟩ := p
  simp only [beq_iff_eq] at hpg
  simp only at hpj
  subst hpg
  subst hpj
  exact hmem

theorem same_id_same_owner {l : List (String × Nat)}
    (hnd : (l.map (fun p => p.2)).Nodup) {a b : String × Nat}
    (ha : a ∈ l) (hb : b ∈ l) (hab : a.2 = b.2) : a = b :=
  List.inj_on_of_nodup_map hnd ha hb hab

theorem stopMonitoring_inv (s : SchedState) (gid : String) (h : SchedInv s) :
    SchedInv (stopMonitoring s gid) ∧
    activeFor (stopMonitoring s gid) gid = [] ∧
    alookup (stopMonitoring s gid).tasks gid = none := by
  obtain ⟨hfresh, hnd, hcorr⟩ := h
  cases ht : alookup s.tasks gid with
  | none =>
    have hstop : stopMonitoring s gid = s := by
      unfold stopMonitoring; rw [ht]
    rw [hstop]
    refine ⟨⟨hfresh, hnd, hcorr⟩, ?_, ht⟩
    rw [hcorr gid, ht]
    rfl
  | some i =>
    have hstop : stopMonitoring s gid =
        ⟨aremove s.tasks gid, s.intervals.filter (fun p => p.2 != i), s.nextId⟩ := by
      unfold stopMonitoring clearIntervalM
      rw [ht]
    have hgidmem : (gid, i) ∈ s.intervals := by
      apply mem_activeFor (s := s) (g := gid) (j := i)
      rw [hcorr gid, ht]
      simp
    have hact : ∀ g,
        activeFor ⟨aremove s.tasks gid, s.intervals.filter (fun p => p.2 != i), s.nextId⟩ g
          = (activeFor s g).filter (fun x => x != i) :=
      fun g => activeFor_filter_snd s.intervals i g
    have hcorrnew : ∀ g,
        activeFor ⟨aremove s.tasks gid, s.intervals.filter (fun p => p.2 != i), s.nextId⟩ g
          = (alookup (aremove s.tasks gid) g).elim [] (fun x => [x]) := by
      intro g
      rw [hact g, alookup_aremove]
      by_cases hg : g = gid
      · subst hg
        rw [if_pos rfl, hcorr g, ht]
        simp
      · rw [if_neg hg, hcorr g]
        cases htg : alookup s.tasks g with
        | none => rfl
        | some j =>
          have hjmem : (g, j) ∈ s.intervals := by
            apply mem_activeFor (s := s) (g := g) (j := j)
            rw [hcorr g, htg]
            simp
          have hji : j ≠ i := by
            intro hji
            have heq := same_id_same_owner hnd hjmem hgidmem (by simpa using hji)
            exact hg (congrArg Prod.fst heq)
          simp [hji]
    rw [hstop]
    refine ⟨⟨?_, ?_, hcorrnew⟩, ?_, ?_⟩
    · intro p hp
      exact hfresh p (List.mem_of_mem_filter hp)
    · exact List.Nodup.sublist (List.Sublist.map _ (List.filter_sublist _)) hnd
    · rw [hcorrnew gid, alookup_aremove]
      simp
    · rw [alookup_aremove]
      simp

theorem startMonitoring_inv (s : SchedState) (gid : String) (h : SchedInv s) :
    SchedInv (startMonitoring s gid) ∧
    activeFor (startMonitoring s gid) gid = [s.nextId] := by
  obtain ⟨h1inv, h1act, h1task⟩ := stopMonitoring_inv s gid h
  obtain ⟨h1fresh, h1nd, h1corr⟩ := h1inv
  have hn1 : (stopMonitoring s gid).nextId = s.nextId := stop_nextId s gid
  have hstart : startMonitoring s gid =
      ⟨aset (stopMonitoring s gid).tasks gid (stopMonitoring s gid).nextId,
        (gid, (stopMonitoring s gid).nextId) :: (stopMonitoring s gid).intervals,
        (stopMonitoring s gid).nextId + 1⟩ := rfl
  have hacons : ∀ g,
      activeFor ⟨aset (stopMonitoring s gid).tasks gid (stopMonitoring s gid).nextId,
        (gid, (stopMonitoring s gid).nextId) :: (stopMonitoring s gid).intervals,
        (stopMonitoring s gid).nextId + 1⟩ g
        = (if gid = g then [(stopMonitoring s gid).nextId] else []) ++
            activeFor (stopMonitoring s gid) g := by
    intro g
    unfold activeFor
    by_cases hg : gid = g <;> simp [List.filter_cons, hg]
  have hcorrnew : ∀ g,
      activeFor ⟨aset (stopMonitoring s gid).tasks gid (stopMonitoring s gid).nextId,
        (gid, (stopMonitoring s gid).nextId) :: (stopMonitoring s gid).intervals,
        (stopMonitoring s gid).nextId + 1⟩ g
        = (alookup (aset (stopMonitoring s gid).tasks gid (stopMonitoring s gid).nextId) g).elim
            [] (fun x => [x]) := by
    intro g
    rw [hacons g]
    by_cases hg : g = gid
    · subst hg
      rw [alookup_aset_self, if_pos rfl, h1act]
      rfl
    · rw [alookup_aset_ne _ _ _ _ hg, if_neg (fun he => hg he.symm), h1corr g]
      rfl
  constructor
  · rw [hstart]
    refine ⟨?_, ?_, hcorrnew⟩
    · intro p hp
      rcases List.mem_cons.mp hp with hp1 | hp2
      · rw [hp1]
        exact Nat.lt_succ_self _
      · exact Nat.lt_succ_of_lt (h1fresh p hp2)
    · rw [List.map_cons]
      refine List.nodup_cons.mpr ⟨?_, h1nd⟩
      intro hmem
      rw [List.mem_map] at hmem
      obtain ⟨p, hpmem, hpeq⟩ := hmem
      have := h1fresh p hpmem
      omega
  · rw [hstart, hacons gid, if_pos rfl, h1act, hn1]
    simp

/-! ### Configuration store: `loadDB` and `saveDBAtomic` -/

/-- The durable file's condition when read. -/
inductive FileState where
  | missing
  | present (content : String)
deriving DecidableEq

/-- What `loadDB` produces: the mapping plus whether it logged an error. -/
structure LoadOut where
  db : DB
  loggedError : Bool
deriving DecidableEq

/-- `loadDB()` from index.js. `parseJson` stands for `JSON.parse` (external
library): `none` models a parse throw. A missing file (`ENOENT`) yields the
empty mapping silently; any other failure yields the empty mapping after
logging. -/
def loadDB (parseJson : String → Option DB) : FileState → LoadOut
  | .missing => ⟨[], false⟩
  | .present c =>
    match parseJson c with
    | some d => ⟨d, false⟩
    | none => ⟨[], true⟩

/-- Filesystem operations attempted by `saveDBAtomic`, in program order;
failed attempts are recorded too. -/
inductive FsEvent where
  | writeTmp (content : String)
  | renameTmpToDb
  | writeDirect (content : String)
  | logAtomicFail
  | logFallbackFail
deriving DecidableEq

/-- Contents of the temporary and durable files. -/
structure FsState where
  tmpFile : Option String
  dbFile : Option String
deriving DecidableEq

/-- Failure injection for the three filesystem calls of `saveDBAtomic`. -/
structure SaveEnv where
  writeTmpFails : Bool
  renameFails : Bool
  writeDirectFails : Bool

/-- `saveDBAtomic(db)` from index.js. `serialize` stands for
`JSON.stringify(db, null, 2)`. Try: write the snapshot to the tmp file, then
rename it over the durable file. Catch: log, then one direct write of the
durable file; if that throws too, log again. Both catches swallow the error,
so the function always returns (never throws), which is why its type is a
total pair rather than an `Except`. -/
def saveDBAtomic (serialize : DB → String) (env : SaveEnv) (fs : FsState) (db : DB) :
    FsState × List FsEvent :=
  let text := serialize db
  if env.writeTmpFails then
    if env.writeDirectFails then
      (fs, [.writeTmp text, .logAtomicFail, .writeDirect text, .logFallbackFail])
    else
      ({ fs with dbFile := some text },
        [.writeTmp text, .logAtomicFail, .writeDirect text])
  else
    let fs1 := { fs with tmpFile := some text }
    if env.renameFails then
      if env.writeDirectFails then
        (fs1, [.writeTmp text, .renameTmpToDb, .logAtomicFail, .writeDirect text,
          .logFallbackFail])
      else
        ({ fs1 with dbFile := some text },
          [.writeTmp text, .renameTmpToDb, .logAtomicFail, .writeDirect text])
    else
      (⟨none, some text⟩, [.writeTmp text, .renameTmpToDb])

/-- Direct (non-atomic) write attempts in a save trace. -/
def directWriteCount (es : List FsEvent) : Nat :=
  es.countP (fun e =>
    match e with
    | .writeDirect _ => true
    | _ => false)

/-! ### The `removeserver` interaction path -/

/-- What the `removeserver` branch of the interaction handler leaves behind:
the in-memory mapping, whether `saveDBAtomic` ran, whether `stopMonitoring`
ran, and the reply text. -/
structure RemoveOut where
  db : DB
  saveCalled : Bool
  stopCalled : Bool
  reply : String
deriving DecidableEq

/-- `if (!db[gid]) db[gid] = { servers: {} };` — the ensure-structure step the
interaction handler runs before dispatching on the command. -/
def ensureGuildStruct (db : DB) (gid : String) : DB :=
  match alookup db gid with
  | some _ => db
  | none => aset db gid ⟨[]⟩

/-- Whether the tenant's configuration has an entry for the host. -/
def hostPresent (db : DB) (gid host : String) : Bool :=
  match alookup db gid with
  | some g => (alookup g.servers host).isSome
  | none => false

/-- The `removeserver` command path (index.js lines 242 and 289–306), as run
for a requester holding the Manage Channels permission: ensure the tenant
structure, reply `Not found!` when the host is absent, otherwise delete the
host, drop the tenant and stop its timer when that was its last server, and
save. -/
def removeServerCmd (db0 : DB) (gid host : String) : RemoveOut :=
  let db := ensureGuildStruct db0 gid
  let g := (alookup db gid).getD ⟨[]⟩
  match alookup g.servers host with
  | none => ⟨db, false, false, "Not found!"⟩
  | some _ =>
    let g' : GuildCfg := ⟨aremove g.servers host⟩
    if g'.servers.isEmpty then
      ⟨aremove db gid, true, true, "Stopped monitoring `" ++ host ++ "`"⟩
    else
      ⟨aset db gid g', true, false, "Stopped monitoring `" ++ host ++ "`"⟩

/-! ### Shared helper lemmas -/

theorem take100_length_le (s : String) :
    (take100 s).toList.length ≤ SERVER_NAME_MAX := by
  have h : (take100 s).toList = s.toList.take SERVER_NAME_MAX := rfl
  rw [h, List.length_take]
  exact Nat.min_le_left _ _

theorem renderOffline_length_le (onm : Option String) :
    (renderOffline onm).toList.length ≤ SERVER_NAME_MAX :=
  take100_length_le _

theorem renderOnline_length_le (onm : Option String) (n m : Nat) :
    (renderOnline onm n m).toList.length ≤ SERVER_NAME_MAX :=
  take100_length_le _

theorem alookup_map_val {α β : Type} (f : String → α → β) (l : List (String × α))
    (k : String) :
    alookup (l.map (fun p => (p.1, f p.1 p.2))) k = (alookup l k).map (f k) := by
  induction l with
  | nil => rfl
  | cons p rest ih =>
    obtain ⟨a, c⟩ := p
    by_cases hak : a = k
    · subst hak; simp [alookup, ih]
    · simp [alookup, hak, ih]

theorem setChanName_eq_map (l : ChanMap) (cid nm : String) :
    setChanName l cid nm =
      l.map (fun p => (p.1, if p.1 = cid then { p.2 with name := nm } else p.2)) := by
  unfold setChanName
  congr 1
  funext p
  by_cases h : p.1 = cid <;> simp [h]

theorem alookup_setChanName (l : ChanMap) (cid nm k : String) :
    alookup (setChanName l cid nm) k =
      (alookup l k).map (fun c => if k = cid then { c with name := nm } else c) := by
  rw [setChanName_eq_map]
  exact alookup_map_val (fun a c => if a = cid then { c with name := nm } else c) l k

/-- The catch handler of a unit always finishes on an offline-family path. -/
theorem unitCatch_isOffline (env : UnitEnv) (chans : ChanMap) (cfg : ServerCfg) :
    isOfflinePath (unitCatch env chans cfg).path = true := by
  unfold unitCatch
  cases hch : fetchChannelSafe chans env.fetchNull2 cfg.channelId with
  | none => rfl
  | some ch =>
    by_cases hm : ch.manageable = false
    · simp [hm, isOfflinePath]
    · by_cases hnm : ch.name = renderOffline cfg.offlineName
      · simp [hm, hnm, isOfflinePath]
      · by_cases hw : env.setNameFails2 <;> simp [hm, hnm, hw, isOfflinePath]

/-! ### Claims -/

/-- C8: `loadDB` returns the empty mapping, not an error, both when the
durable file is missing and when it is present but unparseable; in the
corrupt case the condition is logged rather than crashing. -/
theorem loadDB_degrades_gracefully (parseJson : String → Option DB) (c : String)
    (hc : parseJson c = none) :
    loadDB parseJson .missing = ⟨[], false⟩ ∧
    loadDB parseJson (.present c) = ⟨[], true⟩ := by
  constructor
  · rfl
  · simp [loadDB, hc]

/-- Witness for C8: a parse that rejects the concrete content "not json". -/
theorem loadDB_degrades_gracefully_witness :
    (fun _ : String => (none : Option DB)) "not json" = none ∧
    loadDB (fun _ => none) .missing = ⟨[], false⟩ ∧
    loadDB (fun _ => none) (.present "not json") = ⟨[], true⟩ :=
  ⟨rfl, loadDB_degrades_gracefully (fun _ => none) "not json" rfl⟩

/-- C9: `saveDBAtomic` writes the serialized snapshot to the tmp file and then
renames it over the durable file; if that sequence fails it attempts exactly
one direct overwrite of the durable file; if that also fails it logs the
failure and still returns normally (the embedding is a total function because
both `catch` blocks swallow their error). -/
theorem saveDBAtomic_strategy (serialize : DB → String) (env : SaveEnv)
    (fs : FsState) (db : DB) :
    (env.writeTmpFails = false → env.renameFails = false →
      saveDBAtomic serialize env fs db =
        (⟨none, some (serialize db)⟩,
          [.writeTmp (serialize db), .renameTmpToDb]) ∧
      directWriteCount (saveDBAtomic serialize env fs db).2 = 0) ∧
    ((env.writeTmpFails = true ∨ env.renameFails = true) →
      directWriteCount (saveDBAtomic serialize env fs db).2 = 1 ∧
      FsEvent.logAtomicFail ∈ (saveDBAtomic serialize env fs db).2) ∧
    ((env.writeTmpFails = true ∨ env.renameFails = true) →
      env.writeDirectFails = false →
      (saveDBAtomic serialize env fs db).1.dbFile = some (serialize db)) ∧
    ((env.writeTmpFails = true ∨ env.renameFails = true) →
      env.writeDirectFails = true →
      FsEvent.logFallbackFail ∈ (saveDBAtomic serialize env fs db).2 ∧
      (saveDBAtomic serialize env fs db).1.dbFile = fs.dbFile) := by
  obtain ⟨wt, rf, wd⟩ := env
  cases wt <;> cases rf <;> cases wd <;>
    simp [saveDBAtomic, directWriteCount]

/-- Witness for C9: rename fails and the direct fallback fails too, at a
concrete snapshot; exactly one direct attempt and a logged failure result. -/
theorem saveDBAtomic_strategy_witness :
    directWriteCount
      (saveDBAtomic (fun _ => "snap") ⟨false, true, true⟩ ⟨none, some "old"⟩ []).2 = 1 ∧
    FsEvent.logFallbackFail ∈
      (saveDBAtomic (fun _ => "snap") ⟨false, true, true⟩ ⟨none, some "old"⟩ []).2 ∧
    (saveDBAtomic (fun _ => "snap") ⟨false, true, true⟩ ⟨none, some "old"⟩ []).1.dbFile =
      some "old" :=
  ⟨((saveDBAtomic_strategy (fun _ => "snap") ⟨false, true, true⟩ ⟨none, some "old"⟩ []).2.1
      (Or.inr rfl)).1,
   ((saveDBAtomic_strategy (fun _ => "snap") ⟨false, true, true⟩ ⟨none, some "old"⟩ []).2.2.2
      (Or.inr rfl) rfl).1,
   ((saveDBAtomic_strategy (fun _ => "snap") ⟨false, true, true⟩ ⟨none, some "old"⟩ []).2.2.2
      (Or.inr rfl) rfl).2⟩

/-- C10 counterexample: removing a host from a tenant that has no entry at
all replies `Not found!` without saving, yet the in-memory mapping is NOT
left unchanged — the handler's ensure-structure step inserts an empty entry
for the tenant. -/
theorem removeserver_notfound_mutates_db :
    (removeServerCmd [] "g" "h").db ≠ [] ∧
    (removeServerCmd [] "g" "h").reply = "Not found!" ∧
    (removeServerCmd [] "g" "h").saveCalled = false := by
  refine ⟨?_, rfl, rfl⟩
  intro h
  simp [removeServerCmd, ensureGuildStruct, alookup, aset, aremove, alookup_aset_self] at h

/-- C10 (amended): on the not-found path `removeserver` performs no save, does
not touch the tenant's timer, and replies `Not found!`; the in-memory mapping
is unchanged whenever the tenant already has an entry, and otherwise changes
only by the ensure-structure step inserting an empty entry for the tenant. -/
theorem removeserver_notfound_atomic (db : DB) (gid host : String)
    (h : hostPresent db gid host = false) :
    (removeServerCmd db gid host).db = ensureGuildStruct db gid ∧
    (removeServerCmd db gid host).saveCalled = false ∧
    (removeServerCmd db gid host).stopCalled = false ∧
    (removeServerCmd db gid host).reply = "Not found!" ∧
    (alookup db gid ≠ none → (removeServerCmd db gid host).db = db) := by
  unfold hostPresent at h
  cases hdb : alookup db gid with
  | none =>
    have hens : ensureGuildStruct db gid = aset db gid ⟨[]⟩ := by
      unfold ensureGuildStruct; rw [hdb]
    have hout : removeServerCmd db gid host = ⟨aset db gid ⟨[]⟩, false, false, "Not found!"⟩ := by
      simp [removeServerCmd, hens, alookup_aset_self, alookup]
    rw [hout, hens]
    exact ⟨rfl, rfl, rfl, rfl, fun hne => absurd rfl hne⟩
  | some g =>
    have h2 : (alookup g.servers host).isSome = false := by
      rw [hdb] at h; exact h
    have hs : alookup g.servers host = none := by
      cases hsv : alookup g.servers host with
      | none => rfl
      | some c => rw [hsv] at h2; simp at h2
    have hens : ensureGuildStruct db gid = db := by
      unfold ensureGuildStruct; rw [hdb]
    have hout : removeServerCmd db gid host = ⟨db, false, false, "Not found!"⟩ := by
      simp [removeServerCmd, hens, hdb, hs]
    rw [hout, hens]
    exact ⟨rfl, rfl, rfl, rfl, fun _ => rfl⟩

/-- C6: a channel that resolves but is not manageable makes the unit skip
with a warning: zero `setName` calls in the trace, the channel map is left
unchanged, and the failure (offline) path is not taken. -/
theorem unmanageable_skips (env : UnitEnv) (chans : ChanMap) (cfg : ServerCfg)
    (ch : GuildChannel)
    (hch : fetchChannelSafe chans env.fetchNull cfg.channelId = some ch)
    (hm : ch.manageable = false) :
    runUnit env chans cfg = ⟨chans, [.warnNotManageable], .notManageable⟩ ∧
    writeCalls (runUnit env chans cfg).events = [] ∧
    isOfflinePath (runUnit env chans cfg).path = false := by
  have h1 : runUnit env chans cfg = ⟨chans, [.warnNotManageable], .notManageable⟩ := by
    unfold runUnit unitTry
    rw [hch]
    simp [hm]
  exact ⟨h1, by rw [h1]; rfl, by rw [h1]; rfl⟩

/-- Witness for C6: a concrete unmanageable channel is skipped writeless. -/
theorem unmanageable_skips_witness :
    runUnit ⟨false, .pending, false, false, false⟩ [("c1", ⟨"c1", false, "nm"⟩)]
        ⟨"c1", 25565, false, none, none⟩ =
      ⟨[("c1", ⟨"c1", false, "nm"⟩)], [.warnNotManageable], .notManageable⟩ ∧
    writeCalls (runUnit ⟨false, .pending, false, false, false⟩
        [("c1", ⟨"c1", false, "nm"⟩)] ⟨"c1", 25565, false, none, none⟩).events = [] ∧
    isOfflinePath (runUnit ⟨false, .pending, false, false, false⟩
        [("c1", ⟨"c1", false, "nm"⟩)] ⟨"c1", 25565, false, none, none⟩).path = false :=
  unmanageable_skips ⟨false, .pending, false, false, false⟩
    [("c1", ⟨"c1", false, "nm"⟩)] ⟨"c1", 25565, false, none, none⟩
    ⟨"c1", false, "nm"⟩ (by decide) (by decide)

/-- C7: the online label substitutes the player counts into the template and
truncates to the 100-character ceiling; with the template
"Online | (online)/(max)" (placeholders in braces) and counts 5/20 the label
is "Online | 5/20", and a channel already carrying the rendered label gets
zero `setName` calls. -/
theorem online_no_redundant_write (env : UnitEnv) (chans : ChanMap)
    (cfg : ServerCfg) (ch : GuildChannel) (t : Nat) (r : StatusResult)
    (hch : fetchChannelSafe chans env.fetchNull cfg.channelId = some ch)
    (hm : ch.manageable = true)
    (hp : env.probe = .resolved t r) (ht : t < overallTimeout)
    (heq : ch.name = renderOnline cfg.onlineName (onlineOf r) (maxOf r)) :
    runUnit env chans cfg = ⟨chans, [], .onlineDone false⟩ ∧
    writeCalls (runUnit env chans cfg).events = [] ∧
    renderOnline (some "Online | \x7bonline\x7d/\x7bmax\x7d") 5 20 = "Online | 5/20" ∧
    (∀ onm n m, (renderOnline onm n m).toList.length ≤ SERVER_NAME_MAX) := by
  have h1 : runUnit env chans cfg = ⟨chans, [], .onlineDone false⟩ := by
    unfold runUnit unitTry
    rw [hch, hp]
    simp [withTimeout, ht, hm, heq]
  exact ⟨h1, by rw [h1]; rfl, by decide, fun onm n m => renderOnline_length_le onm n m⟩

/-- Witness for C7: the concrete scenario of the spec, current label already
"Online | 5/20". -/
theorem online_no_redundant_write_witness :
    runUnit ⟨false, .resolved 100 ⟨some ⟨some 5, some 20⟩⟩, false, false, false⟩
        [("c1", ⟨"c1", true, "Online | 5/20"⟩)]
        ⟨"c1", 25565, false, some "Online | \x7bonline\x7d/\x7bmax\x7d", none⟩ =
      ⟨[("c1", ⟨"c1", true, "Online | 5/20"⟩)], [], .onlineDone false⟩ ∧
    writeCalls (runUnit ⟨false, .resolved 100 ⟨some ⟨some 5, some 20⟩⟩, false, false, false⟩
        [("c1", ⟨"c1", true, "Online | 5/20"⟩)]
        ⟨"c1", 25565, false, some "Online | \x7bonline\x7d/\x7bmax\x7d", none⟩).events = [] ∧
    renderOnline (some "Online | \x7bonline\x7d/\x7bmax\x7d") 5 20 = "Online | 5/20" ∧
    (∀ onm n m, (renderOnline onm n m).toList.length ≤ SERVER_NAME_MAX) :=
  online_no_redundant_write
    ⟨false, .resolved 100 ⟨some ⟨some 5, some 20⟩⟩, false, false, false⟩
    [("c1", ⟨"c1", true, "Online | 5/20"⟩)]
    ⟨"c1", 25565, false, some "Online | \x7bonline\x7d/\x7bmax\x7d", none⟩
    ⟨"c1", true, "Online | 5/20"⟩ 100 ⟨some ⟨some 5, some 20⟩⟩
    (by decide) (by decide) rfl (by decide) (by decide)

/-- C1: a probe that has not settled within the 7000 ms overall timeout makes
`withTimeout` reject with message "timeout" at the deadline; any later
result of the inner call is discarded (the output never depends on it); and
under such a probe the per-service unit takes the failure (offline) path. -/
theorem probe_overall_timeout (p : PromiseOutcome StatusResult)
    (env : UnitEnv) (chans : ChanMap) (cfg : ServerCfg) (ch : GuildChannel)
    (hp : settlesBefore p overallTimeout = false)
    (henv : env.probe = p)
    (hch : fetchChannelSafe chans env.fetchNull cfg.channelId = some ch)
    (hm : ch.manageable = true) :
    withTimeout p overallTimeout = .rejected overallTimeout "timeout" ∧
    (∀ t v, overallTimeout ≤ t →
      withTimeout (PromiseOutcome.resolved t v : PromiseOutcome StatusResult)
        overallTimeout = .rejected overallTimeout "timeout") ∧
    isOfflinePath (runUnit env chans cfg).path = true := by
  have hw : withTimeout p overallTimeout = .rejected overallTimeout "timeout" := by
    cases p <;> simp [withTimeout, settlesBefore] at hp ⊢ <;> simp [hp]
  refine ⟨hw, ?_, ?_⟩
  · intro t v htv
    simp [withTimeout, Nat.not_lt.mpr htv]
  · have herr : unitTry env chans cfg = .error ([], .probeErr "timeout") := by
      unfold unitTry
      rw [hch, henv, hw]
      simp [hm]
    unfold runUnit
    rw [herr]
    simpa using unitCatch_isOffline env chans cfg

/-- Witness for C1: a never-settling probe at a concrete manageable channel. -/
theorem probe_overall_timeout_witness :
    withTimeout (PromiseOutcome.pending : PromiseOutcome StatusResult) overallTimeout =
      .rejected overallTimeout "timeout" ∧
    (∀ t v, overallTimeout ≤ t →
      withTimeout (PromiseOutcome.resolved t v : PromiseOutcome StatusResult)
        overallTimeout = .rejected overallTimeout "timeout") ∧
    isOfflinePath (runUnit ⟨false, .pending, false, false, false⟩
        [("c1", ⟨"c1", true, "nm"⟩)] ⟨"c1", 25565, false, none, none⟩).path = true :=
  probe_overall_timeout .pending ⟨false, .pending, false, false, false⟩
    [("c1", ⟨"c1", true, "nm"⟩)] ⟨"c1", 25565, false, none, none⟩
    ⟨"c1", true, "nm"⟩ (by decide) rfl (by decide) (by decide)

/-- C3: when the unit body raises (probe failure, timeout, or the online
rename step), reconciliation falls back to the offline path: the offline
template (default "Offline | Server down") is rendered, truncated to the
100-character maximum, and written only when it differs from the current
label — and in the trace that write precedes the final error log. -/
theorem offline_fallback (env : UnitEnv) (chans : ChanMap) (cfg : ServerCfg)
    (es : List UEvent) (e : UnitErr) (ch : GuildChannel)
    (herr : unitTry env chans cfg = .error (es, e))
    (hch : fetchChannelSafe chans env.fetchNull2 cfg.channelId = some ch)
    (hm : ch.manageable = true) (hw : env.setNameFails2 = false) :
    (ch.name ≠ renderOffline cfg.offlineName →
      runUnit env chans cfg =
        ⟨setChanName chans ch.id (renderOffline cfg.offlineName),
          es ++ [.setNameCall ch.id (renderOffline cfg.offlineName), .warnCheckFailed],
          .offlineDone true⟩) ∧
    (ch.name = renderOffline cfg.offlineName →
      runUnit env chans cfg = ⟨chans, es ++ [.warnCheckFailed], .offlineDone false⟩) ∧
    renderOffline none = "Offline | Server down" ∧
    (∀ onm, (renderOffline onm).toList.length ≤ SERVER_NAME_MAX) := by
  refine ⟨?_, ?_, by decide, fun onm => renderOffline_length_le onm⟩
  · intro hne
    unfold runUnit
    rw [herr]
    unfold unitCatch
    rw [hch]
    simp [hm, hne, hw]
  · intro hequ
    unfold runUnit
    rw [herr]
    unfold unitCatch
    rw [hch]
    simp [hm, hequ]

/-- Witness for C3: a never-settling probe forces the catch path, which
writes the default offline label (different from the current one) and then
logs. -/
theorem offline_fallback_witness :
    (("nm" : String) ≠ renderOffline none →
      runUnit ⟨false, .pending, false, false, false⟩ [("c1", ⟨"c1", true, "nm"⟩)]
          ⟨"c1", 25565, false, none, none⟩ =
        ⟨setChanName [("c1", ⟨"c1", true, "nm"⟩)] "c1" (renderOffline none),
          [] ++ [.setNameCall "c1" (renderOffline none), .warnCheckFailed],
          .offlineDone true⟩) ∧
    (("nm" : String) = renderOffline none →
      runUnit ⟨false, .pending, false, false, false⟩ [("c1", ⟨"c1", true, "nm"⟩)]
          ⟨"c1", 25565, false, none, none⟩ =
        ⟨[("c1", ⟨"c1", true, "nm"⟩)], [] ++ [.warnCheckFailed], .offlineDone false⟩) ∧
    renderOffline none = "Offline | Server down" ∧
    (∀ onm, (renderOffline onm).toList.length ≤ SERVER_NAME_MAX) :=
  offline_fallback ⟨false, .pending, false, false, false⟩
    [("c1", ⟨"c1", true, "nm"⟩)] ⟨"c1", 25565, false, none, none⟩
    [] (.probeErr "timeout") ⟨"c1", true, "nm"⟩
    rfl (by decide) (by decide) (by decide)

/-- C2: the online path writes the label only when the rendered label differs
from the channel name read fresh from the target, so reconciling twice in a
row with the same Online outcome (and no external change) issues at most one
write in total. -/
theorem reconcile_write_once (env : UnitEnv) (chans : ChanMap) (cfg : ServerCfg)
    (ch : GuildChannel) (t : Nat) (r : StatusResult)
    (hfetch : env.fetchNull = false)
    (hch : alookup chans cfg.channelId = some ch)
    (hid : ch.id = cfg.channelId)
    (hm : ch.manageable = true)
    (hp : env.probe = .resolved t r) (ht : t < overallTimeout)
    (hw : env.setNameFails = false) :
    writeCalls (runUnit env chans cfg).events =
      (if ch.name = renderOnline cfg.onlineName (onlineOf r) (maxOf r) then []
       else [(cfg.channelId, renderOnline cfg.onlineName (onlineOf r) (maxOf r))]) ∧
    writeCalls (runUnit env (runUnit env chans cfg).chans cfg).events = [] ∧
    (writeCalls (runUnit env chans cfg).events).length +
      (writeCalls (runUnit env (runUnit env chans cfg).chans cfg).events).length ≤ 1 := by
  have hfc : fetchChannelSafe chans env.fetchNull cfg.channelId = some ch := by
    simp [fetchChannelSafe, hfetch, hch]
  by_cases hnm : ch.name = renderOnline cfg.onlineName (onlineOf r) (maxOf r)
  · have h1 : runUnit env chans cfg = ⟨chans, [], .onlineDone false⟩ := by
      unfold runUnit unitTry
      rw [hfc, hp]
      simp [withTimeout, ht, hm, hnm]
    simp only [h1]
    simp [writeCalls, hnm]
  · have h1 : runUnit env chans cfg =
        ⟨setChanName chans ch.id (renderOnline cfg.onlineName (onlineOf r) (maxOf r)),
          [.setNameCall ch.id (renderOnline cfg.onlineName (onlineOf r) (maxOf r))],
          .onlineDone true⟩ := by
      unfold runUnit unitTry
      rw [hfc, hp]
      simp [withTimeout, ht, hm, hnm, hw]
    have hch2 : alookup
        (setChanName chans ch.id (renderOnline cfg.onlineName (onlineOf r) (maxOf r)))
        cfg.channelId =
        some { ch with name := renderOnline cfg.onlineName (onlineOf r) (maxOf r) } := by
      rw [alookup_setChanName, hch]
      simp [hid]
    have hfc2 : fetchChannelSafe
        (setChanName chans ch.id (renderOnline cfg.onlineName (onlineOf r) (maxOf r)))
        env.fetchNull cfg.channelId =
        some { ch with name := renderOnline cfg.onlineName (onlineOf r) (maxOf r) } := by
      simp [fetchChannelSafe, hfetch, hch2]
    have h2 : runUnit env
        (setChanName chans ch.id (renderOnline cfg.onlineName (onlineOf r) (maxOf r))) cfg =
        ⟨setChanName chans ch.id (renderOnline cfg.onlineName (onlineOf r) (maxOf r)),
          [], .onlineDone false⟩ := by
      unfold runUnit unitTry
      rw [hfc2, hp]
      simp [withTimeout, ht, hm]
    simp only [h1]
    simp only [h2]
    simp [writeCalls, hnm, hid]

/-- Witness for C2: first reconcile renames "old" to "Online | 5/20", second
reconcile is writeless. -/
theorem reconcile_write_once_witness :
    writeCalls (runUnit ⟨false, .resolved 100 ⟨some ⟨some 5, some 20⟩⟩, false, false, false⟩
        [("c1", ⟨"c1", true, "old"⟩)]
        ⟨"c1", 25565, false, some "Online | \x7bonline\x7d/\x7bmax\x7d", none⟩).events =
      (if ("old" : String) =
          renderOnline (some "Online | \x7bonline\x7d/\x7bmax\x7d")
            (onlineOf ⟨some ⟨some 5, some 20⟩⟩) (maxOf ⟨some ⟨some 5, some 20⟩⟩) then []
       else [("c1", renderOnline (some "Online | \x7bonline\x7d/\x7bmax\x7d")
            (onlineOf ⟨some ⟨some 5, some 20⟩⟩) (maxOf ⟨some ⟨some 5, some 20⟩⟩))]) ∧
    writeCalls (runUnit ⟨false, .resolved 100 ⟨some ⟨some 5, some 20⟩⟩, false, false, false⟩
        (runUnit ⟨false, .resolved 100 ⟨some ⟨some 5, some 20⟩⟩, false, false, false⟩
          [("c1", ⟨"c1", true, "old"⟩)]
          ⟨"c1", 25565, false, some "Online | \x7bonline\x7d/\x7bmax\x7d", none⟩).chans
        ⟨"c1", 25565, false, some "Online | \x7bonline\x7d/\x7bmax\x7d", none⟩).events = [] ∧
    (writeCalls (runUnit ⟨false, .resolved 100 ⟨some ⟨some 5, some 20⟩⟩, false, false, false⟩
        [("c1", ⟨"c1", true, "old"⟩)]
        ⟨"c1", 25565, false, some "Online | \x7bonline\x7d/\x7bmax\x7d", none⟩).events).length +
      (writeCalls (runUnit ⟨false, .resolved 100 ⟨some ⟨some 5, some 20⟩⟩, false, false, false⟩
        (runUnit ⟨false, .resolved 100 ⟨some ⟨some 5, some 20⟩⟩, false, false, false⟩
          [("c1", ⟨"c1", true, "old"⟩)]
          ⟨"c1", 25565, false, some "Online | \x7bonline\x7d/\x7bmax\x7d", none⟩).chans
        ⟨"c1", 25565, false, some "Online | \x7bonline\x7d/\x7bmax\x7d", none⟩).events).length ≤ 1 :=
  reconcile_write_once ⟨false, .resolved 100 ⟨some ⟨some 5, some 20⟩⟩, false, false, false⟩
    [("c1", ⟨"c1", true, "old"⟩)]
    ⟨"c1", 25565, false, some "Online | \x7bonline\x7d/\x7bmax\x7d", none⟩
    ⟨"c1", true, "old"⟩ 100 ⟨some ⟨some 5, some 20⟩⟩
    rfl (by decide) rfl (by decide) rfl (by decide) rfl

/-- C4: each cycle settles one outcome per configured server entry, a unit's
outcome is a function of its own environment only (a sibling unit's failing
environment cannot change it), and every error a unit body raises is
absorbed by that unit's catch handler, so nothing escapes `updateGuild` to
the timer or to another tenant's cycle. -/
theorem cycle_isolation (db : DB) (gid : String) (g : GuildCfg)
    (genv genv' : String → UnitEnv) (chans : ChanMap)
    (hg : alookup db gid = some g) :
    updateGuild db gid genv chans =
      g.servers.map (fun p => (p.1, runUnit (genv p.1) chans p.2)) ∧
    (updateGuild db gid genv chans).length = g.servers.length ∧
    (∀ p ∈ g.servers, genv p.1 = genv' p.1 →
      (p.1, runUnit (genv p.1) chans p.2) ∈ updateGuild db gid genv' chans) ∧
    (∀ e c cfg pr, unitTry e c cfg = .error pr →
      runUnit e c cfg =
        ⟨(unitCatch e c cfg).chans, pr.1 ++ (unitCatch e c cfg).events,
          (unitCatch e c cfg).path⟩) := by
  have hmain : ∀ ge : String → UnitEnv, updateGuild db gid ge chans =
      g.servers.map (fun p => (p.1, runUnit (ge p.1) chans p.2)) := by
    intro ge
    by_cases hs : g.servers.isEmpty
    · have hnil : g.servers = [] := List.isEmpty_iff.mp hs
      simp [updateGuild, hg, hs, hnil]
    · simp [updateGuild, hg, hs]
  refine ⟨hmain genv, by rw [hmain genv, List.length_map], ?_, ?_⟩
  · intro p hpmem hsame
    rw [hmain genv', hsame]
    exact List.mem_map_of_mem _ hpmem
  · intro e c cfg pr hpr
    obtain ⟨es, er⟩ := pr
    unfold runUnit
    rw [hpr]

/-- Witness for C4: a one-server tenant; the sibling-agreement and
error-absorption facts instantiated. -/
theorem cycle_isolation_witness :
    updateGuild [("g", ⟨[("h", ⟨"c1", 25565, false, none, none⟩)]⟩)] "g"
        (fun _ => ⟨false, .pending, false, false, false⟩) [] =
      ([("h", ⟨"c1", 25565, false, none, none⟩)] :
        List (String × ServerCfg)).map (fun p =>
          (p.1, runUnit ((fun _ => (⟨false, .pending, false, false, false⟩ : UnitEnv)) p.1) [] p.2)) ∧
    (updateGuild [("g", ⟨[("h", ⟨"c1", 25565, false, none, none⟩)]⟩)] "g"
        (fun _ => ⟨false, .pending, false, false, false⟩) []).length =
      ([("h", ⟨"c1", 25565, false, none, none⟩)] : List (String × ServerCfg)).length ∧
    (∀ p ∈ ([("h", ⟨"c1", 25565, false, none, none⟩)] : List (String × ServerCfg)),
      (fun _ : String => (⟨false, .pending, false, false, false⟩ : UnitEnv)) p.1 =
        (fun _ : String => (⟨false, .pending, false, false, false⟩ : UnitEnv)) p.1 →
      (p.1, runUnit ((fun _ => (⟨false, .pending, false, false, false⟩ : UnitEnv)) p.1) [] p.2) ∈
        updateGuild [("g", ⟨[("h", ⟨"c1", 25565, false, none, none⟩)]⟩)] "g"
          (fun _ => ⟨false, .pending, false, false, false⟩) []) ∧
    (∀ e c cfg pr, unitTry e c cfg = .error pr →
      runUnit e c cfg =
        ⟨(unitCatch e c cfg).chans, pr.1 ++ (unitCatch e c cfg).events,
          (unitCatch e c cfg).path⟩) :=
  cycle_isolation [("g", ⟨[("h", ⟨"c1", 25565, false, none, none⟩)]⟩)] "g"
    ⟨[("h", ⟨"c1", 25565, false, none, none⟩)]⟩
    (fun _ => ⟨false, .pending, false, false, false⟩)
    (fun _ => ⟨false, .pending, false, false, false⟩) [] (by decide)

/-- C5: at most one live recurring timer per tenant: under the scheduler
invariant every tenant has at most one live interval, start and stop
preserve the invariant, start called twice in succession leaves exactly one
live timer for the tenant, stop leaves none, and stop without a recorded
handle is a no-op. -/
theorem scheduler_one_timer (s : SchedState) (gid : String) (h : SchedInv s) :
    (∀ g, (activeFor s g).length ≤ 1) ∧
    SchedInv (startMonitoring s gid) ∧
    SchedInv (stopMonitoring s gid) ∧
    (activeFor (startMonitoring (startMonitoring s gid) gid) gid).length = 1 ∧
    activeFor (stopMonitoring s gid) gid = [] ∧
    alookup (stopMonitoring s gid).tasks gid = none ∧
    (alookup s.tasks gid = none → stopMonitoring s gid = s) := by
  obtain ⟨hsinv, hsact, hstask⟩ := stopMonitoring_inv s gid h
  obtain ⟨h1inv, h1act⟩ := startMonitoring_inv s gid h
  obtain ⟨h2inv, h2act⟩ := startMonitoring_inv (startMonitoring s gid) gid h1inv
  refine ⟨?_, h1inv, hsinv, ?_, hsact, hstask, ?_⟩
  · intro g
    rw [h.2.2 g]
    cases alookup s.tasks g <;> simp
  · rw [h2act]
    rfl
  · intro hnone
    unfold stopMonitoring
    rw [hnone]

/-- Witness for C5: from the empty scheduler state, start twice for tenant
"T" yields exactly one live timer; stop on the empty state is a no-op. -/
theorem scheduler_one_timer_witness :
    (∀ g, (activeFor ⟨[], [], 0⟩ g).length ≤ 1) ∧
    SchedInv (startMonitoring ⟨[], [], 0⟩ "T") ∧
    SchedInv (stopMonitoring ⟨[], [], 0⟩ "T") ∧
    (activeFor (startMonitoring (startMonitoring ⟨[], [], 0⟩ "T") "T") "T").length = 1 ∧
    activeFor (stopMonitoring ⟨[], [], 0⟩ "T") "T" = [] ∧
    alookup (stopMonitoring ⟨[], [], 0⟩ "T").tasks "T" = none ∧
    (alookup (SchedState.mk [] [] 0).tasks "T" = none →
      stopMonitoring ⟨[], [], 0⟩ "T" = ⟨[], [], 0⟩) :=
  scheduler_one_timer ⟨[], [], 0⟩ "T"
    ⟨by intro p hp; simp at hp, by simp, fun g => rfl⟩

/-- Witness for C10 (amended): a tenant with one server, removing an absent
host leaves the mapping fully unchanged and replies `Not found!`. -/
theorem removeserver_notfound_atomic_witness :
    hostPresent [("g", ⟨[("mc.example.com", ⟨"c1", 25565, false, none, none⟩)]⟩)] "g" "other" = false ∧
    (removeServerCmd [("g", ⟨[("mc.example.com", ⟨"c1", 25565, false, none, none⟩)]⟩)] "g" "other").db =
      [("g", ⟨[("mc.example.com", ⟨"c1", 25565, false, none, none⟩)]⟩)] ∧
    (removeServerCmd [("g", ⟨[("mc.example.com", ⟨"c1", 25565, false, none, none⟩)]⟩)] "g" "other").saveCalled = false ∧
    (removeServerCmd [("g", ⟨[("mc.example.com", ⟨"c1", 25565, false, none, none⟩)]⟩)] "g" "other").reply = "Not found!" := by
  have happ := removeserver_notfound_atomic
    [("g", ⟨[("mc.example.com", ⟨"c1", 25565, false, none, none⟩)]⟩)] "g" "other" (by decide)
  refine ⟨by decide, ?_, happ.2.1, happ.2.2.2.1⟩
  exact happ.2.2.2.2 (by decide)

end StatusBot
